import Mathlib

/-!
Shallow embedding of the data-lake ETL pipeline (`etl.py`).

The pipeline reads song-catalog JSON records and event-log JSON records,
derives five tables (songs, artists, users, time, songplays) with Spark SQL
queries, and writes them to object storage in overwrite mode.  We embed the
rows as Lean structures (SQL NULL becomes `Option`), each SQL query as a list
transformation, the Spark session's temp-view registry and the object store as
explicit records threaded through the two stage functions, and Spark's
analysis-time name resolution for the songplays query (whose text references
the alias `logT` and the relations `log_data_table` / `song_data_table`) as an
explicit check against the aliases and registered views in scope.
-/

namespace Etl

/-- An input song-catalog record as read from `song_data/*/*/*/*.json`
(nullable JSON fields become `Option`). -/
structure SongRecord where
  song_id : Option String
  title : Option String
  artist_id : Option String
  artist_name : Option String
  artist_location : Option String
  artist_latitude : Option Rat
  artist_longitude : Option Rat
  year : Option Int
  duration : Option Rat
deriving DecidableEq, Repr

/-- An input event-log record as read from `log_data/*.json`. -/
structure LogRecord where
  userId : Option String
  firstName : Option String
  lastName : Option String
  gender : Option String
  level : Option String
  page : Option String
  ts : Option Int
  sessionId : Option Int
  location : Option String
  userAgent : Option String
  artist : Option String
  song : Option String
deriving DecidableEq, Repr

/-- A row of the songs table: `SELECT song_id, title, artist_id, year,
duration FROM song_data_table WHERE song_id IS NOT NULL`. -/
structure SongsRow where
  song_id : Option String
  title : Option String
  artist_id : Option String
  year : Option Int
  duration : Option Rat
deriving DecidableEq, Repr

/-- A row of the artists table: `SELECT DISTINCT artist_id, artist_name,
artist_location, artist_latitude, artist_longitude FROM song_data_table
WHERE artist_id IS NOT NULL`. -/
structure ArtistsRow where
  artist_id : Option String
  artist_name : Option String
  artist_location : Option String
  artist_latitude : Option Rat
  artist_longitude : Option Rat
deriving DecidableEq, Repr

/-- A row of the users table: `SELECT DISTINCT userId, firstName, lastName,
gender, level FROM log_data_table WHERE userId IS NOT NULL`. -/
structure UsersRow where
  user_id : Option String
  first_name : Option String
  last_name : Option String
  gender : Option String
  level : Option String
deriving DecidableEq, Repr

/-- A row of the time table.  `start_time` is the timestamp value
`to_timestamp(ts/1000)` represented by its epoch milliseconds; the remaining
fields are the engine functions `hour`, `dayofmonth`, `weekofyear`, `month`,
`year`, `dayofweek` applied to it (session time zone UTC). -/
structure TimeRow where
  start_time : Int
  hour : Int
  day : Int
  week : Int
  month : Int
  year : Int
  weekday : Int
deriving DecidableEq, Repr

/- ---------------------------------------------------------------------
Timestamp arithmetic: `to_timestamp(ts/1000)` and the engine's calendar
functions over it, for epoch-millisecond inputs, UTC.
--------------------------------------------------------------------- -/

/-- Whole epoch seconds of the timestamp `to_timestamp(ts/1000)` for an
epoch-millisecond value `t`. -/
def tsSeconds (t : Int) : Int := Int.fdiv t 1000

/-- Epoch day number (days since 1970-01-01) of the timestamp. -/
def tsDays (t : Int) : Int := Int.fdiv (tsSeconds t) 86400

/-- Second within the UTC day of the timestamp. -/
def tsSecOfDay (t : Int) : Int := Int.emod (tsSeconds t) 86400

/-- `hour(...)` of the timestamp. -/
def tsHour (t : Int) : Int := Int.fdiv (tsSecOfDay t) 3600

/-- Proleptic-Gregorian civil date `(year, month, day)` of an epoch day
number (Euclidean-division based days-to-date conversion). -/
def dateFromDays (z : Int) : Int × Int × Int :=
  let z2 := z + 719468
  let era := Int.fdiv z2 146097
  let doe := z2 - era * 146097
  let yoe := Int.fdiv (doe - Int.fdiv doe 1460 + Int.fdiv doe 36524 - Int.fdiv doe 146096) 365
  let y := yoe + era * 400
  let doy := doe - (365 * yoe + Int.fdiv yoe 4 - Int.fdiv yoe 100)
  let mp := Int.fdiv (5 * doy + 2) 153
  let d := doy - Int.fdiv (153 * mp + 2) 5 + 1
  let m := if mp < 10 then mp + 3 else mp - 9
  (y + (if m ≤ 2 then 1 else 0), m, d)

/-- `year(...)` of the timestamp. -/
def tsYear (t : Int) : Int := (dateFromDays (tsDays t)).1

/-- `month(...)` of the timestamp. -/
def tsMonth (t : Int) : Int := (dateFromDays (tsDays t)).2.1

/-- `dayofmonth(...)` of the timestamp. -/
def tsDay (t : Int) : Int := (dateFromDays (tsDays t)).2.2

/-- Gregorian leap-year test. -/
def isLeap (y : Int) : Bool :=
  (Int.emod y 4 == 0 && Int.emod y 100 != 0) || Int.emod y 400 == 0

/-- Days in the months strictly before month `m` of a year (non-leap
cumulative table, plus one from March on in a leap year). -/
def monthDaysBefore (m : Int) (leap : Bool) : Int :=
  let base :=
    if m = 1 then 0 else if m = 2 then 31 else if m = 3 then 59 else if m = 4 then 90
    else if m = 5 then 120 else if m = 6 then 151 else if m = 7 then 181
    else if m = 8 then 212 else if m = 9 then 243 else if m = 10 then 273
    else if m = 11 then 304 else 334
  if leap && m > 2 then base + 1 else base

/-- ISO day of week (Monday = 1 … Sunday = 7) of an epoch day number. -/
def isoDayOfWeek (days : Int) : Int := Int.emod (days + 3) 7 + 1

/-- Day of week of 31 December of year `y`, as a residue mod 7. -/
def lastDowOfYear (y : Int) : Int :=
  Int.emod (y + Int.fdiv y 4 - Int.fdiv y 100 + Int.fdiv y 400) 7

/-- Number of ISO weeks in year `y` (52 or 53). -/
def weeksInIsoYear (y : Int) : Int :=
  if lastDowOfYear y == 4 || lastDowOfYear (y - 1) == 3 then 53 else 52

/-- `weekofyear(...)` of the timestamp: the ISO-8601 week number. -/
def tsWeekOfYear (t : Int) : Int :=
  let days := tsDays t
  let date := dateFromDays days
  let doy := monthDaysBefore date.2.1 (isLeap date.1) + date.2.2
  let w := Int.fdiv (doy - isoDayOfWeek days + 10) 7
  if w < 1 then weeksInIsoYear (date.1 - 1)
  else if w > weeksInIsoYear date.1 then 1
  else w

/-- `dayofweek(...)` of the timestamp: Sunday = 1 … Saturday = 7
(1970-01-01 was a Thursday, hence the offset 4). -/
def tsWeekday (t : Int) : Int := Int.emod (tsDays t + 4) 7 + 1

/-- The time-table row derived from a non-null `ts` value `t` (epoch
milliseconds), per the subquery `to_timestamp(log.ts/1000) as time` and the
outer projection of `hour`, `dayofmonth`, `weekofyear`, `month`, `year`,
`dayofweek`. -/
def timeRow (t : Int) : TimeRow :=
  { start_time := t
    hour := tsHour t
    day := tsDay t
    week := tsWeekOfYear t
    month := tsMonth t
    year := tsYear t
    weekday := tsWeekday t }

/- ---------------------------------------------------------------------
The five table queries as list transformations.
--------------------------------------------------------------------- -/

/-- Projection of the songs-table query. -/
def projSong (r : SongRecord) : SongsRow :=
  { song_id := r.song_id, title := r.title, artist_id := r.artist_id,
    year := r.year, duration := r.duration }

/-- The songs table: project after `WHERE song_id IS NOT NULL` (no
DISTINCT in the query). -/
def songsTable (records : List SongRecord) : List SongsRow :=
  (records.filter (fun r => r.song_id.isSome)).map projSong

/-- Projection of the artists-table query. -/
def projArtist (r : SongRecord) : ArtistsRow :=
  { artist_id := r.artist_id, artist_name := r.artist_name,
    artist_location := r.artist_location, artist_latitude := r.artist_latitude,
    artist_longitude := r.artist_longitude }

/-- The artists table: `SELECT DISTINCT ... WHERE artist_id IS NOT NULL`
(full-row distinctness after the null filter). -/
def artistsTable (records : List SongRecord) : List ArtistsRow :=
  ((records.filter (fun r => r.artist_id.isSome)).map projArtist).dedup

/-- The filter `df.page == 'NextSong'` (SQL equality against a NULL page is
not true, so NULL-page rows are dropped). -/
def isNextSong (l : LogRecord) : Bool := l.page == some "NextSong"

/-- Projection of the users-table query. -/
def projUser (l : LogRecord) : UsersRow :=
  { user_id := l.userId, first_name := l.firstName, last_name := l.lastName,
    gender := l.gender, level := l.level }

/-- The users table: `SELECT DISTINCT ... WHERE userId IS NOT NULL` over the
NextSong-filtered log view (full-row distinctness). -/
def usersTable (df : List LogRecord) : List UsersRow :=
  ((df.filter (fun l => l.userId.isSome)).map projUser).dedup

/-- The time table: one row per log row of the view with non-null `ts`
(the query has no DISTINCT). -/
def timeTable (df : List LogRecord) : List TimeRow :=
  df.filterMap (fun l => Option.map timeRow l.ts)

/- ---------------------------------------------------------------------
The songplays query.  Its SQL text is

  SELECT monotonically_increasing_id() as songplay_id,
         to_timestamp(logT.ts/1000) as start_time, ...
  FROM log_data_table log
  JOIN song_data_table song on log.artist = song.artist_name
                           and log.song = song.title

so its relations are the two session temp views, its aliases in scope are
`log` and `song`, and its column references include the qualifier `logT`,
which Spark's analysis cannot resolve.
--------------------------------------------------------------------- -/

/-- SQL three-valued equality on nullable strings restricted to "is true":
a NULL on either side does not match. -/
def sqlEqStr : Option String → Option String → Bool
  | some a, some b => a == b
  | _, _ => false

/-- The ON predicate: `log.artist = song.artist_name and log.song =
song.title`. -/
def joinMatches (l : LogRecord) (s : SongRecord) : Bool :=
  sqlEqStr l.artist s.artist_name && sqlEqStr l.song s.title

/-- The pairs produced by the inner join `log_data_table log JOIN
song_data_table song` on the ON predicate. -/
def joinPairs : List LogRecord → List SongRecord → List (LogRecord × SongRecord)
  | [], _ => []
  | l :: rest, songs =>
      (songs.filter (joinMatches l)).map (fun s => (l, s)) ++ joinPairs rest songs

/-- The table aliases bound by the query's FROM/JOIN clause. -/
def songplaysAliases : List String := ["log", "song"]

/-- Every qualified column reference `alias.column` occurring in the
songplays query text, transcribed in order of appearance. -/
def songplaysColumnRefs : List (String × String) :=
  [("logT", "ts"), ("log", "ts"), ("log", "ts"),
   ("log", "userId"), ("log", "level"),
   ("song", "song_id"), ("song", "artist_id"),
   ("log", "sessionId"), ("log", "location"), ("log", "userAgent"),
   ("log", "artist"), ("song", "artist_name"),
   ("log", "song"), ("song", "title")]

/-- A row of the songplays table.  `start_time`, `month`, `year` are
`Option` because their source expressions go through qualifier resolution. -/
structure SongplayRow where
  songplay_id : Int
  start_time : Option Int
  month : Option Int
  year : Option Int
  user_id : Option String
  level : Option String
  song_id : Option String
  artist_id : Option String
  session_id : Option Int
  location : Option String
  user_agent : Option String
deriving DecidableEq, Repr

/-- Row-level resolution of a qualifier against the log-side alias of the
join: only the alias `log` is bound to the log row. -/
def qualifyLog (l : LogRecord) (q : String) : Option LogRecord :=
  if q == "log" then some l else none

/-- The SELECT projection of the songplays query applied to one joined
pair, with `i` the per-run monotonically increasing surrogate id. -/
def projectSongplay (i : Int) (l : LogRecord) (s : SongRecord) : SongplayRow :=
  { songplay_id := i
    start_time := (qualifyLog l "logT").bind LogRecord.ts
    month := Option.map tsMonth ((qualifyLog l "log").bind LogRecord.ts)
    year := Option.map tsYear ((qualifyLog l "log").bind LogRecord.ts)
    user_id := l.userId
    level := l.level
    song_id := s.song_id
    artist_id := s.artist_id
    session_id := l.sessionId
    location := l.location
    user_agent := l.userAgent }

/-- The songplays query: resolve the FROM relations against the session's
temp views (in FROM order), then check that every qualified column
reference resolves against the aliases in scope — the reference `logT.ts`
does not, so analysis fails — and only then evaluate the join and the
projection. -/
def songplaysQuery (logView : Option (List LogRecord))
    (songView : Option (List SongRecord)) : Except String (List SongplayRow) :=
  match logView, songView with
  | none, _ => Except.error "Table or view not found: log_data_table"
  | _, none => Except.error "Table or view not found: song_data_table"
  | some logs, some songs =>
      if songplaysColumnRefs.all (fun p => songplaysAliases.contains p.1) then
        Except.ok (((joinPairs logs songs).enum).map
          (fun ip => projectSongplay (Int.ofNat ip.1) ip.2.1 ip.2.2))
      else
        Except.error "cannot resolve column logT.ts"

/- ---------------------------------------------------------------------
Session, store and the two stage functions.
--------------------------------------------------------------------- -/

/-- The Spark session's temp-view registry: the two views the script
registers with `createOrReplaceTempView`. -/
structure Session where
  song_data_table : Option (List SongRecord)
  log_data_table : Option (List LogRecord)
deriving DecidableEq, Repr

/-- The object store under `output_data`: one slot per output directory,
`none` meaning the path does not exist. -/
structure Store where
  songs_table : Option (List SongsRow)
  artists_table : Option (List ArtistsRow)
  users_table : Option (List UsersRow)
  time_table : Option (List TimeRow)
  songplays_table : Option (List SongplayRow)
deriving DecidableEq, Repr

/-- Stage 1 (`process_song_data`): read the song records, register the raw
dataframe as the view `song_data_table`, then write the songs table
(partitioned, overwrite) and the artists table (overwrite). -/
def process_song_data (sess : Session) (store : Store)
    (records : List SongRecord) : Session × Store :=
  let sess2 : Session := { sess with song_data_table := some records }
  let store2 : Store := { store with songs_table := some (songsTable records) }
  let store3 : Store := { store2 with artists_table := some (artistsTable records) }
  (sess2, store3)

/-- Stage 2 (`process_log_data`): read and NextSong-filter the log records,
register the filtered dataframe as the view `log_data_table`, write the
users and time tables, read the persisted songs table back from parquet
into `song_df` (failing if the path does not exist; the value is never
used afterwards), run the songplays query against the two temp views, and
write its result.  Returns the store after whatever writes happened and
the run outcome. -/
def process_log_data (sess : Session) (store : Store)
    (logs : List LogRecord) : Store × Except String Unit :=
  let df := logs.filter isNextSong
  let sess2 : Session := { sess with log_data_table := some df }
  let store2 : Store := { store with users_table := some (usersTable df) }
  let store3 : Store := { store2 with time_table := some (timeTable df) }
  match store3.songs_table with
  | none => (store3, Except.error "Path does not exist: songs_table")
  | some song_df =>
      let _ := song_df
      match songplaysQuery sess2.log_data_table sess2.song_data_table with
      | Except.error e => (store3, Except.error e)
      | Except.ok t => ({ store3 with songplays_table := some t }, Except.ok ())

/-- `main`: run the two stages sequentially in a fresh session against the
given store and input corpora. -/
def main (store : Store) (songs : List SongRecord) (logs : List LogRecord) :
    Store × Except String Unit :=
  let sess0 : Session := { song_data_table := none, log_data_table := none }
  let sr := process_song_data sess0 store songs
  process_log_data sr.1 sr.2 logs

/-- A store where no output path exists yet. -/
def emptyStore : Store :=
  { songs_table := none, artists_table := none, users_table := none,
    time_table := none, songplays_table := none }

/-- A log record with every field null, for building concrete corpora. -/
def emptyLog : LogRecord :=
  { userId := none, firstName := none, lastName := none, gender := none,
    level := none, page := none, ts := none, sessionId := none,
    location := none, userAgent := none, artist := none, song := none }

/-- A song record with every field null, for building concrete corpora. -/
def emptySong : SongRecord :=
  { song_id := none, title := none, artist_id := none, artist_name := none,
    artist_location := none, artist_latitude := none, artist_longitude := none,
    year := none, duration := none }

/- ---------------------------------------------------------------------
Concrete corpora used by the claim theorems.
--------------------------------------------------------------------- -/

/-- Catalog record with a null `song_id` whose name/title match `c1Log`. -/
def c1Song : SongRecord :=
  { emptySong with
    title := some "T1x"
    artist_id := some "A1x"
    artist_name := some "Artist1" }

/-- NextSong event matching `c1Song` on (artist, song). -/
def c1Log : LogRecord :=
  { emptyLog with
    userId := some "8"
    page := some "NextSong"
    ts := some 1541106106796
    artist := some "Artist1"
    song := some "T1x" }

/-- The song record of the end-to-end scenario. -/
def c2Song : SongRecord :=
  { emptySong with
    song_id := some "S1"
    title := some "T1"
    artist_id := some "A1"
    artist_name := some "ArtistX"
    year := some 2000
    duration := some 200 }

/-- The log record of the end-to-end scenario. -/
def c2Log : LogRecord :=
  { emptyLog with
    userId := some "7"
    level := some "free"
    page := some "NextSong"
    ts := some 1541106106796
    sessionId := some 1
    location := some "NY"
    userAgent := some "UA"
    artist := some "ArtistX"
    song := some "T1" }

/-- A catalog record for the matched-pair corpus of the iff claim. -/
def c3Song : SongRecord :=
  { emptySong with
    song_id := some "S3"
    title := some "T3"
    artist_id := some "A3"
    artist_name := some "Artist3" }

/-- A NextSong event matching `c3Song` on (artist, song). -/
def c3Log : LogRecord :=
  { emptyLog with
    userId := some "9"
    page := some "NextSong"
    ts := some 1541106106796
    artist := some "Artist3"
    song := some "T3" }

/-- A NextSong event with a non-null `ts`, for the time-derivation witness. -/
def c4Log : LogRecord :=
  { emptyLog with
    userId := some "4"
    page := some "NextSong"
    ts := some 1541106106796 }

/-- Two NextSong events of different users sharing one timestamp. -/
def c5LogA : LogRecord :=
  { emptyLog with
    userId := some "5"
    page := some "NextSong"
    ts := some 1541106106796 }

/-- Second event with the same `ts` as `c5LogA`. -/
def c5LogB : LogRecord :=
  { emptyLog with
    userId := some "6"
    page := some "NextSong"
    ts := some 1541106106796 }

/-- A NextSong event of user 7 at level free. -/
def c6LogA : LogRecord :=
  { emptyLog with
    userId := some "7"
    level := some "free"
    page := some "NextSong"
    ts := some 1541106106796 }

/-- A NextSong event of the same user 7 after upgrading to level paid. -/
def c6LogB : LogRecord :=
  { emptyLog with
    userId := some "7"
    level := some "paid"
    page := some "NextSong"
    ts := some 1541106107796 }

/-- A song record with all five songs-table fields non-null. -/
def c7Song : SongRecord :=
  { emptySong with
    song_id := some "S7"
    title := some "T7"
    artist_id := some "A7"
    artist_name := some "Artist7"
    year := some 1999
    duration := some 123 }

/-- Catalog record with a null `song_id` matching `c9Log`. -/
def c9Song : SongRecord :=
  { emptySong with
    title := some "T9"
    artist_id := some "A9"
    artist_name := some "Artist9" }

/-- NextSong event matching `c9Song` on (artist, song). -/
def c9Log : LogRecord :=
  { emptyLog with
    userId := some "3"
    page := some "NextSong"
    ts := some 1541106106796
    artist := some "Artist9"
    song := some "T9" }

/- ---------------------------------------------------------------------
Claim theorems.
--------------------------------------------------------------------- -/

/-- Claim C1: the claim says the song rows participating in the songplays
join equal the rows of the persisted Songs table.  On the corpus
`[c1Song]`/`[c1Log]` the persisted Songs table is empty (the lone catalog
record has a null `song_id`), yet one song row participates in the join:
the query's FROM clause draws its song rows from the session view
`song_data_table`, and the parquet re-read bound to `song_df` is never
used. -/
theorem join_song_side_differs_from_persisted :
    songsTable [c1Song] = []
    ∧ (joinPairs ([c1Log].filter isNextSong) [c1Song]).length = 1 :=
  ⟨rfl, rfl⟩

/-- Claim C2: on the single-record end-to-end scenario the join predicate
matches exactly one (log, song) pair, but the songplays query fails
analysis on the unresolved reference `logT.ts`, so the run errors and no
Songplays output is written — instead of the one claimed row. -/
theorem scenario_songplays_query_errors :
    (main emptyStore [c2Song] [c2Log]).2
        = Except.error "cannot resolve column logT.ts"
    ∧ (main emptyStore [c2Song] [c2Log]).1.songplays_table = none
    ∧ (joinPairs ([c2Log].filter isNextSong) [c2Song]).length = 1 :=
  ⟨rfl, rfl, rfl⟩

/-- Claim C3: the claim says a Songplays row exists iff a NextSong event's
(artist, song) matches a catalog (artist_name, title).  On a corpus with
exactly one matching pair the query nevertheless produces no rows: it
fails analysis on `logT.ts`, so no Songplays table is produced at all. -/
theorem match_exists_but_query_errors :
    (joinPairs ([c3Log].filter isNextSong) [c3Song]).length = 1
    ∧ songplaysQuery (some ([c3Log].filter isNextSong)) (some [c3Song])
        = Except.error "cannot resolve column logT.ts"
    ∧ (main emptyStore [c3Song] [c3Log]).1.songplays_table = none :=
  ⟨rfl, rfl, rfl⟩

/-- Claim C4: every time-table row is `timeRow t` for some non-null `ts`
value `t` occurring in the source rows, and for ts = 1541106106796 the
derived row is 2018-11-01 21:01:46.796 UTC: hour 21, day 1, week 44,
month 11, year 2018, weekday 5 (Thursday in the engine's 1 = Sunday
numbering). -/
theorem time_table_derivation :
    (∀ (df : List LogRecord) (r : TimeRow), r ∈ timeTable df →
      ∃ t : Int, some t ∈ df.map LogRecord.ts ∧ r = timeRow t)
    ∧ timeRow 1541106106796 =
      { start_time := 1541106106796, hour := 21, day := 1, week := 44,
        month := 11, year := 2018, weekday := 5 } := by
  constructor
  · intro df r hr
    simp only [timeTable] at hr
    obtain ⟨l, hl, hf⟩ := List.mem_filterMap.mp hr
    obtain ⟨t, ht, hrt⟩ := Option.map_eq_some'.mp hf
    exact ⟨t, List.mem_map.mpr ⟨l, hl, ht⟩, hrt.symm⟩
  · rfl

/-- Witness for the time-derivation theorem at the concrete corpus
`[c4Log]` and the row derived from ts = 1541106106796. -/
theorem time_table_derivation_witness :
    ∃ t : Int, some t ∈ [c4Log].map LogRecord.ts
      ∧ timeRow 1541106106796 = timeRow t :=
  time_table_derivation.1 [c4Log] (timeRow 1541106106796) (by decide)

/-- Claim C5 counterexample: the time-table query has no DISTINCT, so two
NextSong events sharing ts = 1541106106796 yield two written rows with
that same `start_time`, refuting "no two rows share the same start_time". -/
theorem time_table_duplicate_start_time :
    (((main emptyStore [] [c5LogA, c5LogB]).1.time_table.getD []).map
      TimeRow.start_time).count 1541106106796 = 2 := by
  decide

/-- Claim C5 amended: the written Time table has one row per
NextSong-filtered log row with a non-null ts (timestamps are not
deduplicated). -/
theorem time_table_row_per_event (logs : List LogRecord) :
    (timeTable (logs.filter isNextSong)).length
      = (logs.filter isNextSong).countP (fun l => l.ts.isSome) := by
  have h : ∀ df : List LogRecord,
      (timeTable df).length = df.countP (fun l => l.ts.isSome) := by
    intro df
    induction df with
    | nil => rfl
    | cons l rest ih =>
      cases hts : l.ts with
      | none =>
        simpa [timeTable, List.filterMap_cons, hts, List.countP_cons] using ih
      | some t =>
        simpa [timeTable, List.filterMap_cons, hts, List.countP_cons] using ih
  exact h _

/-- Claim C6 counterexample: DISTINCT is full-row, so two NextSong events
of user "7" at levels free and paid survive as two distinct written rows
sharing the same `user_id`, refuting "no two distinct rows share the same
user_id". -/
theorem users_table_shared_user_id :
    ∃ r1 ∈ (main emptyStore [] [c6LogA, c6LogB]).1.users_table.getD [],
    ∃ r2 ∈ (main emptyStore [] [c6LogA, c6LogB]).1.users_table.getD [],
      r1.user_id = r2.user_id ∧ r1.level ≠ r2.level := by
  decide

/-- Claim C6 amended: every written Users row has a non-null user_id and
no full row is duplicated; distinct rows may still share a user_id. -/
theorem users_table_nodup_nonnull (logs : List LogRecord) :
    ((usersTable (logs.filter isNextSong)).all (fun r => r.user_id.isSome)) = true
    ∧ (usersTable (logs.filter isNextSong)).Nodup := by
  constructor
  · rw [List.all_eq_true]
    intro r hr
    simp only [usersTable] at hr
    obtain ⟨l, hl, rfl⟩ := List.mem_map.mp (List.mem_dedup.mp hr)
    exact (List.mem_filter.mp hl).2
  · simp only [usersTable]
    exact List.nodup_dedup _

/-- Claim C7: every Songs row has a non-null song_id, every Artists row
has a non-null artist_id, Artists rows are pairwise distinct, each input
record with non-null song_id contributes its projection to the Songs
table, and the Songs table has exactly one row per such record. -/
theorem songs_artists_invariants (records : List SongRecord) :
    ((songsTable records).all (fun r => r.song_id.isSome)) = true
    ∧ ((artistsTable records).all (fun r => r.artist_id.isSome)) = true
    ∧ (artistsTable records).Nodup
    ∧ (∀ rec ∈ records, rec.song_id.isSome = true →
        projSong rec ∈ songsTable records)
    ∧ (songsTable records).length
        = records.countP (fun r => r.song_id.isSome) := by
  refine ⟨?_, ?_, ?_, ?_, ?_⟩
  · rw [List.all_eq_true]
    intro r hr
    simp only [songsTable] at hr
    obtain ⟨x, hx, rfl⟩ := List.mem_map.mp hr
    exact (List.mem_filter.mp hx).2
  · rw [List.all_eq_true]
    intro r hr
    simp only [artistsTable] at hr
    obtain ⟨x, hx, rfl⟩ := List.mem_map.mp (List.mem_dedup.mp hr)
    exact (List.mem_filter.mp hx).2
  · simp only [artistsTable]
    exact List.nodup_dedup _
  · intro rec hrec hsome
    simp only [songsTable]
    exact List.mem_map.mpr ⟨rec, List.mem_filter.mpr ⟨hrec, hsome⟩, rfl⟩
  · simp only [songsTable, List.length_map]
    exact (List.countP_eq_length_filter _ _).symm

/-- Witness for the songs/artists invariants at the one-record corpus
`[c7Song]`. -/
theorem songs_artists_invariants_witness :
    projSong c7Song ∈ songsTable [c7Song] :=
  (songs_artists_invariants [c7Song]).2.2.2.1 c7Song (by decide) (by decide)

/-- Claim C8: running the pipeline a second time against the unchanged
input corpora leaves the store row-for-row identical to the state after
the first run — the four tables that are written are pure functions of
the inputs and are overwritten with the same content, and the songplays
path is touched by neither run (its query fails analysis). -/
theorem pipeline_idempotent (store : Store) (songs : List SongRecord)
    (logs : List LogRecord) :
    (main (main store songs logs).1 songs logs).1 = (main store songs logs).1 :=
  rfl

/-- Claim C9 counterexample: on exactly the corpus shape the claim puts
forward — a catalog record with null song_id whose (artist_name, title)
matches a NextSong event — the run ends in the analysis error on
`logT.ts` and the songplays path is never written, so the written
Songplays table contains no row with a null song_id (it contains no row
at all). -/
theorem songplays_never_written :
    (main emptyStore [c9Song] [c9Log]).1.songplays_table = none
    ∧ (main emptyStore [c9Song] [c9Log]).2
        = Except.error "cannot resolve column logT.ts" :=
  ⟨rfl, rfl⟩

/-- Claim C9 amended: a catalog record with null song_id whose
(artist_name, title) matches a NextSong event does participate in the
join — the query does not exclude it — but the query fails analysis on
`logT.ts`, so no Songplays row is ever output. -/
theorem null_song_id_joins_but_query_errors :
    (∃ p ∈ joinPairs ([c9Log].filter isNextSong) [c9Song], p.2.song_id = none)
    ∧ songplaysQuery (some ([c9Log].filter isNextSong)) (some [c9Song])
        = Except.error "cannot resolve column logT.ts" := by
  exact ⟨by decide, rfl⟩

/-- Claim C10: if `process_log_data` runs in a session where
`process_song_data` has not registered the view `song_data_table`, the
songplays step fails (unresolved relation, or a missing parquet path one
line earlier) and the songplays output is never written — the persisted
stage-1 parquet output does not substitute for the view. -/
theorem log_stage_requires_song_view (sess : Session) (store : Store)
    (logs : List LogRecord) (h : sess.song_data_table = none) :
    (process_log_data sess store logs).2 ≠ Except.ok ()
    ∧ (process_log_data sess store logs).1.songplays_table
        = store.songplays_table := by
  obtain ⟨sd, ld⟩ := sess
  obtain ⟨s1, s2, s3, s4, s5⟩ := store
  cases sd with
  | some x => exact nomatch h
  | none =>
    cases s1 with
    | none => exact ⟨fun h2 => (nomatch h2), rfl⟩
    | some tbl => exact ⟨fun h2 => (nomatch h2), rfl⟩

/-- Witness for the missing-view theorem: a fresh session with no views, a
store already holding a persisted (empty) songs table, and an empty log
corpus. -/
theorem log_stage_requires_song_view_witness :
    (process_log_data { song_data_table := none, log_data_table := none }
        { emptyStore with songs_table := some [] } []).2 ≠ Except.ok ()
    ∧ (process_log_data { song_data_table := none, log_data_table := none }
        { emptyStore with songs_table := some [] } []).1.songplays_table
        = none :=
  log_stage_requires_song_view
    { song_data_table := none, log_data_table := none }
    { emptyStore with songs_table := some [] } [] rfl

end Etl
